import Mathlib

/-!
Verification of the durable task-orchestrator core of givc-core-academy.

The definitions below are shallow embeddings of the agent and workflow code
in backend/linc-agents/src/index.ts and the Cloudflare workflow file embedded
in setup.sh.  JavaScript numbers are modelled as rationals, JavaScript
Math.round as floor of x plus one half, and JavaScript string includes as
substring occurrence on character lists.  Timestamps are modelled as opaque
natural numbers.  The step executor of the Cloudflare workflows platform is
not part of the repository source, so it is modelled from the specification.
-/

/-- JavaScript Math.round of x scaled by 100, i.e. the expression
Math.round(x * 100) / 100 used throughout the source to round scores to two
decimal places.  Math.round rounds half toward positive infinity, which is
floor of the argument plus one half. -/
def round2 (x : ℚ) : ℚ := ((⌊x * 100 + 1/2⌋ : ℤ) : ℚ) / 100

/-- JavaScript toLowerCase, character by character (the keyword matching in
the source only involves ASCII keywords). -/
def lowerStr (s : String) : String := String.mk (s.toList.map Char.toLower)

/-- Character list a is an initial segment of character list b. -/
def startsList : List Char → List Char → Bool
  | [], _ => true
  | _ :: _, [] => false
  | a :: as, b :: bs => a = b && startsList as bs

/-- Character list pat occurs contiguously inside the second list. -/
def occursWithin (pat : List Char) : List Char → Bool
  | [] => pat.isEmpty
  | c :: rest => startsList pat (c :: rest) || occursWithin pat rest

/-- JavaScript text.includes(pat). -/
def strContains (text pat : String) : Bool := occursWithin pat.toList text.toList

/-- The JavaScript idiom v || "default" applied to an optional string field:
a missing field or an empty string (both falsy) yield "default". -/
def jsOrDefault (v : Option String) : String :=
  match v with
  | none => "default"
  | some s => if s = "" then "default" else s

-- ============================================================================
-- ClaimsLincAgent.performAnalysis (index.ts)
-- ============================================================================

/-- A bilingual recommendation record with Arabic and English text. -/
structure Bilingual where
  ar : String
  en : String
deriving DecidableEq

/-- The record returned by ClaimsLincAgent.performAnalysis. -/
structure AnalysisResult where
  rootCauses : List String
  recommendations : List Bilingual
  confidenceScore : ℚ
  estimatedSavings : ℚ
  automationAvailable : Bool
  suggestedActions : List String
deriving DecidableEq

/-- Shallow embedding of ClaimsLincAgent.performAnalysis.  The four keyword
categories are checked in source order; each match pushes one root cause and
one recommendation and overwrites the confidence and savings values, so the
final confidence and savings come from the last matching category.  The
diagnosis and procedure code lists are parameters of the source function but
are not read by it. -/
def performAnalysis (rejectionReason : String)
    (diagnosisCodes procedureCodes : List String) : AnalysisResult :=
  let lowerReason := lowerStr rejectionReason
  let m1 := strContains lowerReason "code" || strContains lowerReason "invalid"
  let m2 := strContains lowerReason "authorization" || strContains lowerReason "prior auth"
  let m3 := strContains lowerReason "documentation" || strContains lowerReason "medical necessity"
  let m4 := strContains lowerReason "timely" || strContains lowerReason "deadline"
  let causes0 : List String :=
    (if m1 then ["Incorrect or missing diagnosis/procedure codes"] else []) ++
    (if m2 then ["Missing prior authorization"] else []) ++
    (if m3 then ["Insufficient clinical documentation"] else []) ++
    (if m4 then ["Claim submitted after filing deadline"] else [])
  let recs0 : List Bilingual :=
    (if m1 then [⟨"تحديث رموز ICD-10 أو CPT المطلوبة", "Update required ICD-10 or CPT codes"⟩] else []) ++
    (if m2 then [⟨"الحصول على تفويض مسبق من الدافع", "Obtain prior authorization from payer"⟩] else []) ++
    (if m3 then [⟨"تحسين التوثيق السريري بالتفاصيل المطلوبة", "Enhance clinical documentation with required details"⟩] else []) ++
    (if m4 then [⟨"مراجعة مواعيد التقديم وتقديم استئناف", "Review submission deadlines and file appeal"⟩] else [])
  let confidenceScore : ℚ :=
    if m4 then 7/10 else if m3 then 8/10 else if m2 then 9/10 else if m1 then 85/100 else 1/2
  let estimatedSavings : ℚ :=
    if m4 then 1500 else if m3 then 3500 else if m2 then 5000 else if m1 then 2500 else 0
  let rootCauses :=
    if causes0.isEmpty then causes0 ++ ["Requires manual review"] else causes0
  let recommendations :=
    if causes0.isEmpty then
      recs0 ++ [⟨"مراجعة يدوية مطلوبة من المختص", "Manual review required by specialist"⟩]
    else recs0
  { rootCauses := rootCauses
    recommendations := recommendations
    confidenceScore := confidenceScore
    estimatedSavings := estimatedSavings
    automationAvailable :=
      decide (0 < rootCauses.length) && !(rootCauses.contains "Requires manual review")
    suggestedActions :=
      if 0 < recommendations.length then
        ["Prepare corrected claim", "Submit for re-processing"]
      else ["Route to manual review"] }

-- ============================================================================
-- AuditWorkflow analyze-compliance step (setup.sh)
-- ============================================================================

/-- The scoring fields of the analyze-compliance step result. -/
structure ComplianceOutcome where
  complianceScore : ℚ
  riskLevel : String
  auditOutcome : String
  errorCount : ℕ
  sampleSize : ℕ
deriving DecidableEq

/-- The raw score ((sampleSize - errorCount) / sampleSize) * 100 of the
analyze-compliance step. -/
def baseScore (sampleSize errorCount : ℕ) : ℚ :=
  ((sampleSize : ℚ) - (errorCount : ℚ)) / (sampleSize : ℚ) * 100

/-- Math.max(0, Math.min(100, baseScore)) of the analyze-compliance step. -/
def clampedScore (sampleSize errorCount : ℕ) : ℚ :=
  max 0 (min 100 (baseScore sampleSize errorCount))

/-- Shallow embedding of the analyze-compliance step of AuditWorkflow.run.
The error count is the parameter that the source derives from its sampled
claims list.  The sequential if statements of the source overwrite the risk
level and outcome, so the lowest matching threshold wins. -/
def analyzeCompliance (sampleSize errorCount : ℕ) : ComplianceOutcome :=
  let complianceScore := clampedScore sampleSize errorCount
  let risk1 := if complianceScore < 90 then "medium" else "low"
  let out1 := if complianceScore < 90 then "MINOR_ISSUES" else "COMPLIANT"
  let risk2 := if complianceScore < 75 then "high" else risk1
  let out2 := if complianceScore < 75 then "REQUIRES_IMPROVEMENT" else out1
  let risk3 := if complianceScore < 60 then "critical" else risk2
  let out3 := if complianceScore < 60 then "NON_COMPLIANT" else out2
  { complianceScore := round2 complianceScore
    riskLevel := risk3
    auditOutcome := out3
    errorCount := errorCount
    sampleSize := sampleSize }

-- ============================================================================
-- LearningLincAgent success probability (index.ts)
-- ============================================================================

/-- Shallow embedding of the success probability computation of
LearningLincAgent.generateLearningPath and of the
calculate-success-probability step of LearningWorkflow.run. -/
def successProbability (yearsOfExperience : ℚ) : ℚ :=
  let baseProbability := 6/10 + yearsOfExperience * (5/100)
  min (95/100) baseProbability

-- ============================================================================
-- MasterLincAgent orchestration hub (index.ts)
-- ============================================================================

/-- The per-instance durable state of MasterLincAgent. -/
structure MasterState where
  createdAt : ℕ
  lastActivity : ℕ
  requestCount : ℕ
deriving DecidableEq

/-- One row of the requests table kept by MasterLincAgent. -/
structure RequestRow where
  id : String
  reqType : String
  payload : String
  response : Option String
deriving DecidableEq

/-- The three downstream agent kinds the hub can fan out to. -/
inductive DownstreamKind
  | claims
  | audit
  | learning
deriving DecidableEq

/-- The optional business identifiers read from the orchestration payload. -/
structure OrchPayload where
  claimId : Option String
  providerId : Option String
  learnerId : Option String
deriving DecidableEq

/-- The HTTP status and error text of the hub response. -/
structure OrchResponse where
  status : ℕ
  errorMsg : Option String
deriving DecidableEq

/-- The switch over the action string in MasterLincAgent.handleOrchestrate. -/
def routeAction (action : String) : Option DownstreamKind :=
  if action = "analyze_claim" then some DownstreamKind.claims
  else if action = "run_audit" then some DownstreamKind.audit
  else if action = "generate_learning_path" then some DownstreamKind.learning
  else none

/-- The downstream durable object name derived from the payload, mirroring
the template strings claims-, audit- and learning- with the || default. -/
def downstreamName (k : DownstreamKind) (p : OrchPayload) : String :=
  match k with
  | DownstreamKind.claims => "claims-" ++ jsOrDefault p.claimId
  | DownstreamKind.audit => "audit-" ++ jsOrDefault p.providerId
  | DownstreamKind.learning => "learning-" ++ jsOrDefault p.learnerId

/-- Shallow embedding of one POST /orchestrate request to MasterLincAgent:
onRequest first updates lastActivity and increments requestCount, then
handleOrchestrate inserts the request row into the requests table, matches
the action, and either fans out to one downstream agent (recording its
response in the row) or answers 400 Unknown action.  The parameter fetch
stands for the downstream agent call; the last component of the result lists
the downstream calls made. -/
def masterOrchestrate (st : MasterState) (log : List RequestRow) (now : ℕ)
    (requestId action payloadText : String) (p : OrchPayload)
    (fetch : DownstreamKind → String → String) :
    MasterState × List RequestRow × OrchResponse × List (DownstreamKind × String) :=
  let st1 : MasterState :=
    { st with lastActivity := now, requestCount := st.requestCount + 1 }
  let log1 := log ++ [⟨requestId, action, payloadText, none⟩]
  match routeAction action with
  | none => (st1, log1, ⟨400, some "Unknown action"⟩, [])
  | some k =>
    let name := downstreamName k p
    let result := fetch k name
    let log2 := log1.map fun r =>
      if r.id = requestId then { r with response := some result } else r
    (st1, log2, ⟨200, none⟩, [(k, name)])

-- ============================================================================
-- Per-kind agent state transitions (index.ts)
-- ============================================================================

/-- The per-instance durable state of ClaimsLincAgent. -/
structure ClaimsState where
  createdAt : ℕ
  lastActivity : ℕ
  requestCount : ℕ
  claimsAnalyzed : ℕ
  totalSavings : ℚ
  pendingClaims : List String
deriving DecidableEq

/-- The per-instance durable state of AuditLincAgent. -/
structure AuditState where
  createdAt : ℕ
  lastActivity : ℕ
  requestCount : ℕ
  auditsCompleted : ℕ
  averageScore : ℚ
  correctiveActions : List (String × String)
deriving DecidableEq

/-- The per-instance durable state of LearningLincAgent. -/
structure LearningState where
  createdAt : ℕ
  lastActivity : ℕ
  requestCount : ℕ
  pathsGenerated : ℕ
  activeModules : List String
  completionRate : ℚ
deriving DecidableEq

/-- The initialState literal of ClaimsLincAgent, with both timestamps taken
at creation time t. -/
def initialClaimsState (t : ℕ) : ClaimsState :=
  { createdAt := t
    lastActivity := t
    requestCount := 0
    claimsAnalyzed := 0
    totalSavings := 0
    pendingClaims := [] }

/-- The net state mutation of one request handled by ClaimsLincAgent:
onRequest updates lastActivity and increments requestCount; when the request
is routed to analyzeClaim, that handler additionally increments
claimsAnalyzed and adds the estimated savings of the analysis to
totalSavings. -/
def claimsRequestState (st : ClaimsState) (now : ℕ) (isAnalyze : Bool)
    (estimatedSavings : ℚ) : ClaimsState :=
  let st1 := { st with lastActivity := now, requestCount := st.requestCount + 1 }
  if isAnalyze then
    { st1 with
      claimsAnalyzed := st1.claimsAnalyzed + 1
      totalSavings := st1.totalSavings + estimatedSavings }
  else st1

/-- The net state mutation of one request handled by AuditLincAgent:
onRequest updates lastActivity and increments requestCount; when the request
is routed to simulateAudit, that handler additionally increments
auditsCompleted, folds the new compliance score into the running average and
appends the generated corrective action ids with status pending. -/
def auditRequestState (st : AuditState) (now : ℕ) (isSimulate : Bool)
    (complianceScore : ℚ) (newActionIds : List String) : AuditState :=
  let st1 := { st with lastActivity := now, requestCount := st.requestCount + 1 }
  if isSimulate then
    let newAuditsCompleted := st1.auditsCompleted + 1
    { st1 with
      auditsCompleted := newAuditsCompleted
      averageScore :=
        (st1.averageScore * (st1.auditsCompleted : ℚ) + complianceScore) /
          (newAuditsCompleted : ℚ)
      correctiveActions :=
        st1.correctiveActions ++ newActionIds.map fun a => (a, "pending") }
  else st1

/-- The net state mutation of one request handled by LearningLincAgent:
onRequest updates lastActivity and increments requestCount; when the request
is routed to generateLearningPath, that handler additionally increments
pathsGenerated and unions the generated module ids into activeModules. -/
def learningRequestState (st : LearningState) (now : ℕ) (isPath : Bool)
    (moduleIds : List String) : LearningState :=
  let st1 := { st with lastActivity := now, requestCount := st.requestCount + 1 }
  if isPath then
    { st1 with
      pathsGenerated := st1.pathsGenerated + 1
      activeModules := (st1.activeModules ++ moduleIds).eraseDups }
  else st1

/-- The durable object name computed by the POST /api/v1/claims/analyze
route: claims- followed by body.claimId || default. -/
def claimsAgentName (claimId : Option String) : String :=
  "claims-" ++ jsOrDefault claimId

-- ============================================================================
-- Step executor (Cloudflare workflows platform, modelled from the spec)
-- ============================================================================

/-- Modelled from the spec: the status of a persisted step record of a
durable run (section 3, TaskRun). -/
inductive StepStatus
  | pending
  | succeeded
  | failed
deriving DecidableEq, BEq

/-- Modelled from the spec: one persisted step record of a durable run. -/
structure StepRecord (α : Type) where
  name : String
  status : StepStatus
  result : Option α
  attempt : ℕ
deriving DecidableEq

/-- Modelled from the spec: the status of a durable run. -/
inductive RunStatus
  | running
  | completed
  | failed
deriving DecidableEq

/-- Modelled from the spec: a durable multi-step run with its persisted step
records. -/
structure TaskRun (α : Type) where
  runId : String
  steps : List (StepRecord α)
  status : RunStatus
deriving DecidableEq

/-- Modelled from the spec: look up the stored result of a step that already
has a succeeded record in this run. -/
def findSucceeded {α : Type} (run : TaskRun α) (stepName : String) : Option α :=
  match run.steps.find? fun s => s.name == stepName && s.status == StepStatus.succeeded with
  | some r => r.result
  | none => none

/-- Modelled from the spec: the retry loop of the step executor.  The step
function is modelled as a function of the attempt index so that a
call-counting stub can be expressed; the second component of the result
counts how many times the function was invoked.  The remaining argument is
the number of retries still allowed after the current attempt. -/
def runAttempts {α : Type} (fn : ℕ → Except String α) (attempt : ℕ) :
    ℕ → Except String α × ℕ
  | 0 => (fn attempt, 1)
  | r + 1 =>
    match fn attempt with
    | Except.ok v => (Except.ok v, 1)
    | Except.error _ =>
      let p := runAttempts fn (attempt + 1) r
      (p.1, p.2 + 1)

/-- Modelled from the spec: execute(run, stepName, fn, options) of the step
executor (section 4.1).  If the step already has a succeeded record its
stored result is returned without invoking fn; otherwise fn is attempted up
to retryLimit + 1 times; on success the result is persisted, on exhaustion a
failed record is persisted and the enclosing run is failed.  The result also
carries the number of times fn was invoked. -/
def stepExecute {α : Type} (run : TaskRun α) (stepName : String)
    (fn : ℕ → Except String α) (retryLimit : ℕ) :
    TaskRun α × Except String α × ℕ :=
  match findSucceeded run stepName with
  | some r => (run, Except.ok r, 0)
  | none =>
    let p := runAttempts fn 0 retryLimit
    match p.1 with
    | Except.ok v =>
      ({ run with steps := run.steps ++ [⟨stepName, StepStatus.succeeded, some v, p.2⟩] },
        Except.ok v, p.2)
    | Except.error e =>
      ({ runId := run.runId
         steps := run.steps ++ [⟨stepName, StepStatus.failed, none, p.2⟩]
         status := RunStatus.failed },
        Except.error e, p.2)

-- ============================================================================
-- Helper lemmas
-- ============================================================================

/-- Evaluation rule for round2: if k bounds x * 100 + 1/2 from below within
one unit, then round2 x is k / 100. -/
theorem round2_eq_of (x : ℚ) (k : ℤ) (h1 : (k : ℚ) ≤ x * 100 + 1/2)
    (h2 : x * 100 + 1/2 < (k : ℚ) + 1) : round2 x = (k : ℚ) / 100 := by
  unfold round2
  have hf : ⌊x * 100 + 1/2⌋ = k := by
    rw [Int.floor_eq_iff]
    exact ⟨h1, by linarith⟩
  rw [hf]

-- ============================================================================
-- Claim theorems
-- ============================================================================

/-- Claim C4 (confirmed): for every non-negative experienceYears the success
probability is exactly min(0.95, 0.6 + experienceYears * 0.05), it never
exceeds 0.95, it is monotonically non-decreasing in experience, and the
two-decimal rounding applied by the learning workflow step leaves the value
of any natural number of years unchanged. -/
theorem C4_success_probability :
    (∀ e : ℚ, 0 ≤ e →
      successProbability e = min (95/100) (6/10 + e * (5/100)) ∧
      successProbability e ≤ 95/100) ∧
    (∀ a b : ℚ, a ≤ b → successProbability a ≤ successProbability b) ∧
    (∀ n : ℕ, round2 (successProbability (n : ℚ)) = successProbability (n : ℚ)) := by
  refine ⟨fun e _ => ⟨rfl, min_le_left _ _⟩, fun a b hab => ?_, fun n => ?_⟩
  · unfold successProbability
    exact min_le_min le_rfl (by linarith)
  · unfold successProbability
    rcases le_total ((95:ℚ)/100) (6/10 + (n : ℚ) * (5/100)) with h | h
    · rw [min_eq_left h]
      rw [round2_eq_of (95/100) 95 (by norm_num) (by norm_num)]
      norm_num
    · rw [min_eq_right h]
      have hk : ((60 + 5 * (n : ℤ) : ℤ) : ℚ) = 60 + 5 * (n : ℚ) := by push_cast; ring
      have harg : (6/10 + (n : ℚ) * (5/100)) * 100 + 1/2 = 60 + 5 * (n : ℚ) + 1/2 := by ring
      rw [round2_eq_of _ (60 + 5 * (n : ℤ))
        (by rw [hk, harg]; linarith) (by rw [hk, harg]; linarith)]
      rw [hk]
      ring

/-- Witness for C4 at concrete inputs. -/
theorem C4_witness :
    (0:ℚ) ≤ 2 ∧ (2:ℚ) ≤ 4 ∧
    successProbability 2 = min (95/100) (6/10 + 2 * (5/100)) ∧
    successProbability 2 ≤ 95/100 ∧
    successProbability 2 ≤ successProbability 4 :=
  ⟨by norm_num, by norm_num,
   (C4_success_probability.1 2 (by norm_num)).1,
   (C4_success_probability.1 2 (by norm_num)).2,
   C4_success_probability.2.1 2 4 (by norm_num)⟩

/-- Claim C8 (confirmed): for rejectionReason missing prior authorization the
analysis returns the single root cause Missing prior authorization with
confidence 0.9, exactly one bilingual recommendation, and
automationAvailable true. -/
theorem C8_prior_authorization :
    performAnalysis "missing prior authorization" [] [] =
      { rootCauses := ["Missing prior authorization"]
        recommendations :=
          [⟨"الحصول على تفويض مسبق من الدافع", "Obtain prior authorization from payer"⟩]
        confidenceScore := 9/10
        estimatedSavings := 5000
        automationAvailable := true
        suggestedActions := ["Prepare corrected claim", "Submit for re-processing"] } := rfl

/-- Claim C3 (confirmed): when the rejection reason matches none of the four
keyword categories, the analysis falls back to the single manual review root
cause with one bilingual recommendation and confidence 0.5. -/
theorem C3_manual_review_fallback (rejectionReason : String)
    (diagnosisCodes procedureCodes : List String)
    (h1 : (strContains (lowerStr rejectionReason) "code" ||
           strContains (lowerStr rejectionReason) "invalid") = false)
    (h2 : (strContains (lowerStr rejectionReason) "authorization" ||
           strContains (lowerStr rejectionReason) "prior auth") = false)
    (h3 : (strContains (lowerStr rejectionReason) "documentation" ||
           strContains (lowerStr rejectionReason) "medical necessity") = false)
    (h4 : (strContains (lowerStr rejectionReason) "timely" ||
           strContains (lowerStr rejectionReason) "deadline") = false) :
    performAnalysis rejectionReason diagnosisCodes procedureCodes =
      { rootCauses := ["Requires manual review"]
        recommendations :=
          [⟨"مراجعة يدوية مطلوبة من المختص", "Manual review required by specialist"⟩]
        confidenceScore := 1/2
        estimatedSavings := 0
        automationAvailable := false
        suggestedActions := ["Prepare corrected claim", "Submit for re-processing"] } := by
  simp [performAnalysis, h1, h2, h3, h4]

/-- Witness for C3 at a concrete keyword-free rejection reason. -/
theorem C3_witness :
    (strContains (lowerStr "unknown reason xyz") "code" ||
     strContains (lowerStr "unknown reason xyz") "invalid") = false ∧
    performAnalysis "unknown reason xyz" [] [] =
      { rootCauses := ["Requires manual review"]
        recommendations :=
          [⟨"مراجعة يدوية مطلوبة من المختص", "Manual review required by specialist"⟩]
        confidenceScore := 1/2
        estimatedSavings := 0
        automationAvailable := false
        suggestedActions := ["Prepare corrected claim", "Submit for re-processing"] } :=
  ⟨by decide,
   C3_manual_review_fallback "unknown reason xyz" [] []
     (by decide) (by decide) (by decide) (by decide)⟩

/-- Claim C10 (confirmed): for every input the analysis produces at least one
root cause and exactly as many recommendations as root causes. -/
theorem C10_analysis_totality (rejectionReason : String)
    (diagnosisCodes procedureCodes : List String) :
    (performAnalysis rejectionReason diagnosisCodes procedureCodes).rootCauses ≠ [] ∧
    (performAnalysis rejectionReason diagnosisCodes procedureCodes).recommendations.length =
      (performAnalysis rejectionReason diagnosisCodes procedureCodes).rootCauses.length := by
  cases hm1 : (strContains (lowerStr rejectionReason) "code" ||
      strContains (lowerStr rejectionReason) "invalid") <;>
    cases hm2 : (strContains (lowerStr rejectionReason) "authorization" ||
      strContains (lowerStr rejectionReason) "prior auth") <;>
    cases hm3 : (strContains (lowerStr rejectionReason) "documentation" ||
      strContains (lowerStr rejectionReason) "medical necessity") <;>
    cases hm4 : (strContains (lowerStr rejectionReason) "timely" ||
      strContains (lowerStr rejectionReason) "deadline") <;>
    simp [performAnalysis, hm1, hm2, hm3, hm4]

/-- Claim C1 (counterexample): at sampleSize 3, errorCount 1 the returned
complianceScore is 66.67, not the exact clamped formula value 200/3, because
the source rounds the score to two decimal places before returning it. -/
theorem C1_counterexample :
    (analyzeCompliance 3 1).complianceScore ≠ clampedScore 3 1 := by
  have hbase : baseScore 3 1 = 200/3 := by unfold baseScore; norm_num
  have hclamp : clampedScore 3 1 = 200/3 := by
    unfold clampedScore
    rw [hbase, min_eq_right (by norm_num), max_eq_right (by norm_num)]
  have hscore : (analyzeCompliance 3 1).complianceScore = round2 (clampedScore 3 1) := rfl
  have hr : round2 (200/3) = (6667 : ℚ) / 100 :=
    round2_eq_of (200/3) 6667 (by norm_num) (by norm_num)
  rw [hscore, hclamp, hr]
  norm_num

/-- Claim C1 (amended): for sampleSize greater than 0 and errorCount at most
sampleSize, the clamp leaves the formula value unchanged, the returned
complianceScore is that value rounded to two decimal places, the risk level
and outcome are classified from the unrounded clamped value by the fixed
thresholds, and in particular sampleSize 50 with errorCount 8 yields
complianceScore 84, riskLevel medium and auditOutcome MINOR_ISSUES. -/
theorem C1_compliance_scoring (sampleSize errorCount : ℕ)
    (hs : 0 < sampleSize) (he : errorCount ≤ sampleSize) :
    clampedScore sampleSize errorCount = baseScore sampleSize errorCount ∧
    (analyzeCompliance sampleSize errorCount).complianceScore =
      round2 (clampedScore sampleSize errorCount) ∧
    (clampedScore sampleSize errorCount < 60 →
      (analyzeCompliance sampleSize errorCount).riskLevel = "critical" ∧
      (analyzeCompliance sampleSize errorCount).auditOutcome = "NON_COMPLIANT") ∧
    (60 ≤ clampedScore sampleSize errorCount → clampedScore sampleSize errorCount < 75 →
      (analyzeCompliance sampleSize errorCount).riskLevel = "high" ∧
      (analyzeCompliance sampleSize errorCount).auditOutcome = "REQUIRES_IMPROVEMENT") ∧
    (75 ≤ clampedScore sampleSize errorCount → clampedScore sampleSize errorCount < 90 →
      (analyzeCompliance sampleSize errorCount).riskLevel = "medium" ∧
      (analyzeCompliance sampleSize errorCount).auditOutcome = "MINOR_ISSUES") ∧
    (90 ≤ clampedScore sampleSize errorCount →
      (analyzeCompliance sampleSize errorCount).riskLevel = "low" ∧
      (analyzeCompliance sampleSize errorCount).auditOutcome = "COMPLIANT") ∧
    (analyzeCompliance 50 8).complianceScore = 84 ∧
    (analyzeCompliance 50 8).riskLevel = "medium" ∧
    (analyzeCompliance 50 8).auditOutcome = "MINOR_ISSUES" := by
  have hs' : (0:ℚ) < (sampleSize : ℚ) := by exact_mod_cast hs
  have he' : ((errorCount : ℚ)) ≤ (sampleSize : ℚ) := by exact_mod_cast he
  have h0 : 0 ≤ baseScore sampleSize errorCount := by
    unfold baseScore
    apply mul_nonneg _ (by norm_num)
    apply div_nonneg _ (le_of_lt hs')
    linarith
  have h100 : baseScore sampleSize errorCount ≤ 100 := by
    unfold baseScore
    have hdiv : ((sampleSize : ℚ) - (errorCount : ℚ)) / (sampleSize : ℚ) ≤ 1 := by
      rw [div_le_one hs']
      linarith
    calc ((sampleSize : ℚ) - (errorCount : ℚ)) / (sampleSize : ℚ) * 100
        ≤ 1 * 100 := by apply mul_le_mul_of_nonneg_right hdiv (by norm_num)
      _ = 100 := by norm_num
  have hclampeq : clampedScore sampleSize errorCount = baseScore sampleSize errorCount := by
    unfold clampedScore
    rw [min_eq_right h100, max_eq_right h0]
  have hb50 : baseScore 50 8 = 84 := by unfold baseScore; norm_num
  have hc50 : clampedScore 50 8 = 84 := by
    unfold clampedScore
    rw [hb50, min_eq_right (by norm_num), max_eq_right (by norm_num)]
  have hr84 : round2 (84 : ℚ) = 84 := by
    rw [round2_eq_of (84 : ℚ) 8400 (by norm_num) (by norm_num)]
    norm_num
  refine ⟨hclampeq, rfl, ?_, ?_, ?_, ?_, ?_, ?_, ?_⟩
  · intro h
    constructor <;>
      · show (if clampedScore sampleSize errorCount < 60 then _ else _) = _
        rw [if_pos h]
  · intro h60 h75
    constructor <;>
      · show (if clampedScore sampleSize errorCount < 60 then _ else _) = _
        rw [if_neg (by linarith), if_pos h75]
  · intro h75 h90
    constructor <;>
      · show (if clampedScore sampleSize errorCount < 60 then _ else _) = _
        rw [if_neg (by linarith), if_neg (by linarith), if_pos h90]
  · intro h90
    constructor <;>
      · show (if clampedScore sampleSize errorCount < 60 then _ else _) = _
        rw [if_neg (by linarith), if_neg (by linarith), if_neg (by linarith)]
  · show round2 (clampedScore 50 8) = 84
    rw [hc50, hr84]
  · show (if clampedScore 50 8 < 60 then _ else _) = _
    rw [hc50]
    rw [if_neg (by norm_num), if_neg (by norm_num), if_pos (by norm_num)]
  · show (if clampedScore 50 8 < 60 then _ else _) = _
    rw [hc50]
    rw [if_neg (by norm_num), if_neg (by norm_num), if_pos (by norm_num)]

/-- Witness for C1 at the concrete audit scenario of the spec. -/
theorem C1_witness :
    0 < 50 ∧ 8 ≤ 50 ∧
    (analyzeCompliance 50 8).complianceScore = 84 ∧
    (analyzeCompliance 50 8).riskLevel = "medium" ∧
    (analyzeCompliance 50 8).auditOutcome = "MINOR_ISSUES" :=
  ⟨by decide, by decide,
   (C1_compliance_scoring 50 8 (by decide) (by decide)).2.2.2.2.2.2.1,
   (C1_compliance_scoring 50 8 (by decide) (by decide)).2.2.2.2.2.2.2.1,
   (C1_compliance_scoring 50 8 (by decide) (by decide)).2.2.2.2.2.2.2.2⟩

/-- Claim C2 (counterexample): at a concrete unknown action the hub answers
400 Unknown action and makes no downstream call, but the per-instance state
is mutated (requestCount goes from 0 to 1, lastActivity is refreshed) and
the request is appended to the request log, so the claim that no state is
mutated is false. -/
theorem C2_counterexample :
    masterOrchestrate ⟨0, 0, 0⟩ [] 1 "r1" "foo" "p" ⟨none, none, none⟩ (fun _ _ => "") =
      (⟨0, 1, 1⟩, [⟨"r1", "foo", "p", none⟩], ⟨400, some "Unknown action"⟩, []) ∧
    (⟨0, 1, 1⟩ : MasterState) ≠ ⟨0, 0, 0⟩ ∧
    ([⟨"r1", "foo", "p", none⟩] : List RequestRow) ≠ [] :=
  ⟨rfl, by decide, by decide⟩

/-- Claim C2 (amended): for every action outside the fixed enumeration the
hub returns a 400 Unknown action error and makes no downstream call, but it
does update lastActivity, increment requestCount and append the request to
its log, with no response recorded on the logged row. -/
theorem C2_unknown_action (st : MasterState) (log : List RequestRow) (now : ℕ)
    (requestId action payloadText : String) (p : OrchPayload)
    (fetch : DownstreamKind → String → String)
    (h : routeAction action = none) :
    masterOrchestrate st log now requestId action payloadText p fetch =
      ({ st with lastActivity := now, requestCount := st.requestCount + 1 },
       log ++ [⟨requestId, action, payloadText, none⟩],
       ⟨400, some "Unknown action"⟩, []) := by
  unfold masterOrchestrate
  rw [h]

/-- Witness for C2 at the concrete action foo. -/
theorem C2_witness :
    routeAction "foo" = none ∧
    masterOrchestrate ⟨5, 5, 2⟩ [] 7 "id1" "foo" "pl" ⟨none, none, none⟩ (fun _ _ => "x") =
      (⟨5, 7, 3⟩, [⟨"id1", "foo", "pl", none⟩], ⟨400, some "Unknown action"⟩, []) :=
  ⟨by decide,
   C2_unknown_action ⟨5, 5, 2⟩ [] 7 "id1" "foo" "pl" ⟨none, none, none⟩
     (fun _ _ => "x") (by decide)⟩

/-- Claim C5 (confirmed, spec-modelled): when a step already has a succeeded
record, re-invoking the run returns the memoized result, leaves the run
unchanged and does not invoke the underlying function (the invocation count
is zero). -/
theorem C5_idempotent_replay {α : Type} (run : TaskRun α) (stepName : String)
    (fn : ℕ → Except String α) (retryLimit : ℕ) (r : α)
    (h : findSucceeded run stepName = some r) :
    stepExecute run stepName fn retryLimit = (run, Except.ok r, 0) := by
  unfold stepExecute
  rw [h]

/-- Witness for C5: a run with a succeeded record for step-a replays the
stored result 42 without calling the stub, which would have returned 99. -/
theorem C5_witness :
    findSucceeded (⟨"run-1", [⟨"step-a", StepStatus.succeeded, some 42, 1⟩],
      RunStatus.completed⟩ : TaskRun ℕ) "step-a" = some 42 ∧
    stepExecute (⟨"run-1", [⟨"step-a", StepStatus.succeeded, some 42, 1⟩],
        RunStatus.completed⟩ : TaskRun ℕ) "step-a" (fun _ => Except.ok 99) 3 =
      (⟨"run-1", [⟨"step-a", StepStatus.succeeded, some 42, 1⟩], RunStatus.completed⟩,
       Except.ok 42, 0) :=
  ⟨by decide,
   C5_idempotent_replay _ "step-a" (fun _ => Except.ok 99) 3 42 (by decide)⟩

/-- Auxiliary: when the step function fails on every attempt, the retry loop
started at attempt a with r retries left invokes the function r + 1 times
and returns the error of the last attempt. -/
theorem runAttempts_all_fail {α : Type} (fn : ℕ → Except String α)
    (msg : ℕ → String) (hfail : ∀ k, fn k = Except.error (msg k)) :
    ∀ (r a : ℕ), runAttempts fn a r = (Except.error (msg (a + r)), r + 1) := by
  intro r
  induction r with
  | zero => intro a; simp [runAttempts, hfail a]
  | succ n ih =>
    intro a
    have hrec := ih (a + 1)
    have harith : a + 1 + n = a + (n + 1) := by omega
    simp [runAttempts, hfail a, hrec, harith]

/-- Claim C6 (confirmed, spec-modelled): a step function that fails on every
attempt, under retries.limit = N, is invoked exactly N + 1 times, after
which the step is recorded failed and the enclosing run is failed. -/
theorem C6_retry_exhaustion {α : Type} (run : TaskRun α) (stepName : String)
    (fn : ℕ → Except String α) (msg : ℕ → String) (retryLimit : ℕ)
    (hfail : ∀ k, fn k = Except.error (msg k))
    (hnew : findSucceeded run stepName = none) :
    stepExecute run stepName fn retryLimit =
      ({ runId := run.runId
         steps := run.steps ++ [⟨stepName, StepStatus.failed, none, retryLimit + 1⟩]
         status := RunStatus.failed },
       Except.error (msg retryLimit), retryLimit + 1) := by
  unfold stepExecute
  rw [hnew]
  have h := runAttempts_all_fail fn msg hfail retryLimit 0
  simp [h]

/-- Witness for C6: an always-failing stub with retry limit 3 is invoked 4
times and the run ends failed. -/
theorem C6_witness :
    findSucceeded (⟨"run-2", [], RunStatus.running⟩ : TaskRun ℕ) "step-b" = none ∧
    stepExecute (⟨"run-2", [], RunStatus.running⟩ : TaskRun ℕ) "step-b"
        (fun _ => Except.error "boom") 3 =
      (⟨"run-2", [⟨"step-b", StepStatus.failed, none, 4⟩], RunStatus.failed⟩,
       Except.error "boom", 4) :=
  ⟨by decide,
   C6_retry_exhaustion (⟨"run-2", [], RunStatus.running⟩ : TaskRun ℕ) "step-b"
     (fun _ => Except.error "boom") (fun _ => "boom") 3 (fun _ => rfl) (by decide)⟩

/-- Claim C7 (confirmed): a claims request without a claimId derives the
fixed default instance key, so two such requests address the same durable
object name, and two consecutive analyze requests starting from the initial
state increment claimsAnalyzed from 0 to 1 to 2. -/
theorem C7_default_instance_key :
    jsOrDefault none = "default" ∧
    claimsAgentName none = "claims-default" ∧
    ∀ (t n1 n2 : ℕ) (s1 s2 : ℚ),
      (initialClaimsState t).claimsAnalyzed = 0 ∧
      (claimsRequestState (initialClaimsState t) n1 true s1).claimsAnalyzed = 1 ∧
      (claimsRequestState (claimsRequestState (initialClaimsState t) n1 true s1)
        n2 true s2).claimsAnalyzed = 2 := by
  refine ⟨rfl, rfl, ?_⟩
  intro t n1 n2 s1 s2
  exact ⟨rfl, rfl, rfl⟩

/-- Claim C9 (confirmed): across all four actor kinds, one handled request
never decreases the monotonic counters requestCount, claimsAnalyzed,
auditsCompleted and pathsGenerated. -/
theorem C9_monotonic_counters :
    (∀ (st : MasterState) (log : List RequestRow) (now : ℕ)
       (requestId action payloadText : String) (p : OrchPayload)
       (fetch : DownstreamKind → String → String),
      st.requestCount ≤
        (masterOrchestrate st log now requestId action payloadText p fetch).1.requestCount) ∧
    (∀ (st : ClaimsState) (now : ℕ) (isAnalyze : Bool) (sav : ℚ),
      st.requestCount ≤ (claimsRequestState st now isAnalyze sav).requestCount ∧
      st.claimsAnalyzed ≤ (claimsRequestState st now isAnalyze sav).claimsAnalyzed) ∧
    (∀ (st : AuditState) (now : ℕ) (isSimulate : Bool) (score : ℚ) (ids : List String),
      st.requestCount ≤ (auditRequestState st now isSimulate score ids).requestCount ∧
      st.auditsCompleted ≤ (auditRequestState st now isSimulate score ids).auditsCompleted) ∧
    (∀ (st : LearningState) (now : ℕ) (isPath : Bool) (ids : List String),
      st.requestCount ≤ (learningRequestState st now isPath ids).requestCount ∧
      st.pathsGenerated ≤ (learningRequestState st now isPath ids).pathsGenerated) := by
  refine ⟨?_, ?_, ?_, ?_⟩
  · intro st log now requestId action payloadText p fetch
    cases h : routeAction action <;> simp [masterOrchestrate, h]
  · intro st now isAnalyze sav
    cases isAnalyze <;> simp [claimsRequestState]
  · intro st now isSimulate score ids
    cases isSimulate <;> simp [auditRequestState]
  · intro st now isPath ids
    cases isPath <;> simp [learningRequestState]
